import Mathlib

/-!
Shallow embedding of `mcp-server-restart`.

Two implementations exist in the repository:
* the canonical one, `src/mcp_server_restart/server.py`, embedded in
  namespace `Canonical`;
* the legacy one, `server.py` at the repository root, embedded in
  namespace `Legacy`.

OS-level nondeterminism (the process table, the behaviour of
terminate/wait on each process, the launch primitive, the clock) is
passed in as explicit inputs.  The embedding records, besides the
returned value, the side effects the claims talk about: which pids
received a terminate signal, how many times `subprocess.Popen` was
invoked, and whether the process table was scanned.
-/

namespace MCPRestart

/-- Does the character list start with the pattern (second argument)? -/
def listStartsWith : List Char → List Char → Bool
  | _, [] => true
  | [], _ :: _ => false
  | c :: cs, p :: ps => c == p && listStartsWith cs ps

/-- Python `s.startswith(pre)`. -/
def strStartsWith (s pre : String) : Bool :=
  listStartsWith s.data pre.data

/-- Does the character list contain the pattern (first argument) as a
contiguous sublist?  Python `pat in s`. -/
def containsAux (pat : List Char) : List Char → Bool
  | [] => pat.isEmpty
  | c :: rest => listStartsWith (c :: rest) pat || containsAux pat rest

/-- Python `pat in s` (substring test). -/
def strContains (s pat : String) : Bool :=
  containsAux pat.data s.data

/-- Replace every non-overlapping occurrence of `pat` (nonempty) by `rep`,
scanning left to right, with explicit fuel for structural recursion. -/
def replaceFuel (pat rep : List Char) : Nat → List Char → List Char
  | _, [] => []
  | 0, l => l
  | fuel + 1, c :: rest =>
    if pat ≠ [] ∧ listStartsWith (c :: rest) pat then
      rep ++ replaceFuel pat rep fuel ((c :: rest).drop pat.length)
    else
      c :: replaceFuel pat rep fuel rest

/-- Python `s.replace(pat, rep)` for a nonempty `pat`: every
non-overlapping occurrence, left to right. -/
def pyReplace (s pat rep : String) : String :=
  ⟨replaceFuel pat.data rep.data s.data.length s.data⟩

/-- What happens when `proc.terminate(); proc.wait(timeout=5)` is executed
on a given process.  `excStr` is Python's `str(e)` for the raised
exception. -/
inductive TermBehavior where
  | exits : TermBehavior
  | timeout (excStr : String) : TermBehavior
  | failure (excStr : String) : TermBehavior
deriving DecidableEq, Repr

/-- One entry of the OS process table, together with the behaviour the OS
would exhibit when this request terminates it.  `accessible = false`
models a process whose info read raises `NoSuchProcess`/`AccessDenied`
(silently skipped by the scans). -/
structure Proc where
  pid : Nat
  name : String
  accessible : Bool
  term : TermBehavior
deriving DecidableEq, Repr

/-- Behaviour of the launch primitive `subprocess.Popen(["open","-a","Claude"])`. -/
inductive LaunchBehavior where
  | ok : LaunchBehavior
  | fails (excStr : String) : LaunchBehavior
deriving DecidableEq, Repr

/-- The `result` dict built by `handle_call_tool`. -/
structure RestartOutcome where
  status : String
  message : String
deriving DecidableEq, Repr

/-- A Python exception value: its type name and its `str(e)`. -/
structure PyExc where
  ty : String
  msg : String
deriving DecidableEq, Repr

/-- Result of `psutil.process_iter` inside `handle_read_resource`: either
the table enumerates normally or the scan raises an exception. -/
inductive ScanOutcome where
  | ok (table : List Proc) : ScanOutcome
  | raises (ty msg : String) : ScanOutcome
deriving DecidableEq, Repr

/-- The status dict built by `handle_read_resource`. -/
structure StatusReport where
  running : Bool
  pid : Option Nat
  timestamp : String
deriving DecidableEq, Repr

/-- `json.dumps(status)` with default separators. -/
def dumpsStatus (st : StatusReport) : String :=
  "\x7b\"running\": " ++ (if st.running then "true" else "false") ++
    ", \"pid\": " ++ (match st.pid with | some n => toString n | none => "null") ++
    ", \"timestamp\": \"" ++ st.timestamp ++ "\"\x7d"

deriving instance DecidableEq for Except

/-- A `handle_call_tool` invocation: the returned value (or the raised
`ValueError` message) plus the side effects the spec talks about. -/
structure ToolCallTrace where
  result : Except String RestartOutcome
  scanned : Bool
  signaled : List Nat
  popenCalls : Nat
deriving DecidableEq, Repr

namespace Canonical

/-- The hardcoded target process name of the canonical implementation. -/
def targetName : String := "Claude Desktop"

/-- The process scan of the canonical implementation: accessible
processes whose name equals `"Claude Desktop"` exactly, in enumeration
order. -/
def claudeProcesses (table : List Proc) : List Proc :=
  table.filter fun p => p.accessible && p.name == targetName

/-- Result of the per-process terminate loop: either every process exited
(accumulated message and signaled pids), or the loop returned early with
an error outcome. -/
inductive TermLoopResult where
  | ok (message : String) (signaled : List Nat) : TermLoopResult
  | fail (outcome : RestartOutcome) (signaled : List Nat) : TermLoopResult
deriving DecidableEq, Repr

/-- The `for proc in claude_processes` loop of `handle_call_tool`
(lines 106-118): terminate and wait each process in order; a timeout or
any other exception aborts with an error outcome (overwriting the
message). -/
def terminateLoop : List Proc → String → List Nat → TermLoopResult
  | [], msg, sig => .ok msg sig
  | p :: rest, msg, sig =>
    match p.term with
    | .exits =>
        terminateLoop rest
          (msg ++ "Terminated Claude process " ++ toString p.pid ++ ". ")
          (sig ++ [p.pid])
    | .timeout _ =>
        .fail ⟨"error", "Failed to terminate Claude: timeout"⟩ (sig ++ [p.pid])
    | .failure e =>
        .fail ⟨"error", "Failed to terminate Claude: " ++ e⟩ (sig ++ [p.pid])

/-- Canonical `handle_call_tool(name, arguments)` (server.py lines
87-134).  `arguments` is ignored by the code, exactly as in the source. -/
def handle_call_tool {α : Type} (name : String) (arguments : α)
    (table : List Proc) (launch : LaunchBehavior) : ToolCallTrace :=
  let _ := arguments
  if name ≠ "restart_claude" then
    { result := .error ("Unknown tool: " ++ name), scanned := false,
      signaled := [], popenCalls := 0 }
  else
    let procs := claudeProcesses table
    match terminateLoop procs "" [] with
    | .fail outcome sig =>
        { result := .ok outcome, scanned := true, signaled := sig,
          popenCalls := 0 }
    | .ok msg sig =>
        let msg := if procs.isEmpty then msg
          else msg ++ "Terminated " ++ toString procs.length ++
            " existing Claude process(es). "
        match launch with
        | .ok =>
            { result := .ok ⟨"success", msg ++ "Started new Claude process."⟩,
              scanned := true, signaled := sig, popenCalls := 1 }
        | .fails _ =>
            { result := .ok ⟨"error", "Failed to start Claude"⟩,
              scanned := true, signaled := sig, popenCalls := 1 }

/-- The per-process log text accumulated by the terminate loop when every
process in the list exits within the timeout. -/
def termLog : List Proc → String
  | [] => ""
  | p :: rest =>
      "Terminated Claude process " ++ toString p.pid ++ ". " ++ termLog rest

/-- The status dict of `handle_read_resource` (lines 59-63): `running` is
whether the match list is nonempty, `pid` the first match's pid. -/
def statusOf (table : List Proc) (ts : String) : StatusReport :=
  let m := claudeProcesses table
  { running := !m.isEmpty, pid := m.head?.map (·.pid), timestamp := ts }

/-- The `try` body of canonical `handle_read_resource` (lines 42-65):
URI scheme check, `uri.replace("claude://", "")` path check, scan,
serialize. -/
def handle_read_resource_body (uri : String) (scan : ScanOutcome)
    (ts : String) : Except PyExc String :=
  if !strStartsWith uri "claude://" then
    .error ⟨"ValueError", "Unknown resource: Invalid URI scheme"⟩
  else
    let path := pyReplace uri "claude://" ""
    if path.isEmpty || path != "status" then
      .error ⟨"ValueError", "Unknown resource: " ++ path⟩
    else
      match scan with
      | .raises ty msg => .error ⟨ty, msg⟩
      | .ok table => .ok (dumpsStatus (statusOf table ts))

/-- Canonical `handle_read_resource` (lines 38-69): the body wrapped in
`except Exception as e`, which wraps any exception whose `str` does not
contain "Unknown resource" into a `ValueError` and re-raises the others
unchanged. -/
def handle_read_resource (uri : String) (scan : ScanOutcome)
    (ts : String) : Except PyExc String :=
  match handle_read_resource_body uri scan ts with
  | .ok s => .ok s
  | .error e =>
      if strContains e.msg "Unknown resource" then .error e
      else .error ⟨"ValueError", "Unknown resource: " ++ e.msg⟩

end Canonical

namespace Legacy

/-- The legacy scan (root `server.py` lines 88-95): the first accessible
process whose name CONTAINS the substring `"Claude"`; the loop breaks at
the first match. -/
def firstMatch (table : List Proc) : Option Proc :=
  table.find? fun p => p.accessible && strContains p.name "Claude"

/-- All processes the legacy matcher would accept, in enumeration order
(used to state claims about "several matching processes"). -/
def substrMatches (table : List Proc) : List Proc :=
  table.filter fun p => p.accessible && strContains p.name "Claude"

/-- The launch step of the legacy `handle_call_tool` (lines 117-125):
`Popen` succeeds and the message is appended, or it raises and the
message is overwritten with `"Failed to start Claude: {str(e)}"`. -/
def launchStep (msg : String) (sig : List Nat)
    (launch : LaunchBehavior) : ToolCallTrace :=
  match launch with
  | .ok =>
      { result := .ok ⟨"success", msg ++ "Started new Claude process."⟩,
        scanned := true, signaled := sig, popenCalls := 1 }
  | .fails e =>
      { result := .ok ⟨"error", "Failed to start Claude: " ++ e⟩,
        scanned := true, signaled := sig, popenCalls := 1 }

/-- Legacy `handle_call_tool(name, arguments)` (root `server.py` lines
72-135).  At most the first substring match is terminated; any exception
during terminate/wait (a timeout included: it is caught by the generic
`except Exception`) aborts with an error and no launch. -/
def handle_call_tool {α : Type} (name : String) (arguments : α)
    (table : List Proc) (launch : LaunchBehavior) : ToolCallTrace :=
  let _ := arguments
  if name ≠ "restart_claude" then
    { result := .error ("Unknown tool: " ++ name), scanned := false,
      signaled := [], popenCalls := 0 }
  else
    match firstMatch table with
    | none => launchStep "" [] launch
    | some p =>
      match p.term with
      | .exits => launchStep "Terminated existing Claude process. " [p.pid] launch
      | .timeout e =>
          { result := .ok ⟨"error", "Failed to terminate Claude: " ++ e⟩,
            scanned := true, signaled := [p.pid], popenCalls := 0 }
      | .failure e =>
          { result := .ok ⟨"error", "Failed to terminate Claude: " ++ e⟩,
            scanned := true, signaled := [p.pid], popenCalls := 0 }

/-- The status dict of the legacy `handle_read_resource` (lines 40-53):
first substring match. -/
def statusOf (table : List Proc) (ts : String) : StatusReport :=
  let m := firstMatch table
  { running := m.isSome, pid := m.map (·.pid), timestamp := ts }

/-- `json.dumps(status, indent=2)` as used by the legacy
`handle_read_resource`. -/
def dumpsStatusIndent (st : StatusReport) : String :=
  "\x7b\n  \"running\": " ++ (if st.running then "true" else "false") ++
    ",\n  \"pid\": " ++ (match st.pid with | some n => toString n | none => "null") ++
    ",\n  \"timestamp\": \"" ++ st.timestamp ++ "\"\n\x7d"

/-- Legacy `handle_read_resource` (root `server.py` lines 34-54): exact
identifier check, then scan and serialize. -/
def handle_read_resource (uri : String) (table : List Proc)
    (ts : String) : Except PyExc String :=
  if uri ≠ "claude://status" then
    .error ⟨"ValueError", "Unknown resource: " ++ uri⟩
  else
    .ok (dumpsStatusIndent (statusOf table ts))

end Legacy

namespace Canonical

theorem terminateLoop_all_exits (ps : List Proc) :
    ∀ (msg : String) (sig : List Nat), (∀ p ∈ ps, p.term = .exits) →
      terminateLoop ps msg sig = .ok (msg ++ termLog ps) (sig ++ ps.map (·.pid)) := by
  induction ps with
  | nil => intro msg sig _; simp [terminateLoop, termLog]
  | cons p rest ih =>
    intro msg sig h
    have hp : p.term = .exits := h p (List.mem_cons_self ..)
    have hrest : ∀ q ∈ rest, q.term = .exits := fun q hq =>
      h q (List.mem_cons_of_mem _ hq)
    simp only [terminateLoop, hp]
    rw [ih _ _ hrest]
    simp [termLog, String.append_assoc, List.append_assoc]

theorem terminateLoop_fail (ps : List Proc) :
    ∀ (msg : String) (sig : List Nat), (∃ p ∈ ps, p.term ≠ .exits) →
      ∃ o sig2, terminateLoop ps msg sig = .fail o sig2 ∧ o.status = "error" := by
  induction ps with
  | nil => intro _ _ h; simp at h
  | cons p rest ih =>
    intro msg sig h
    cases hp : p.term with
    | exits =>
      have hrest : ∃ q ∈ rest, q.term ≠ .exits := by
        rcases h with ⟨q, hq, hqt⟩
        rcases List.mem_cons.mp hq with e | m
        · subst e; exact absurd hp hqt
        · exact ⟨q, m, hqt⟩
      simp only [terminateLoop, hp]
      exact ih _ _ hrest
    | timeout s =>
      exact ⟨⟨"error", "Failed to terminate Claude: timeout"⟩, sig ++ [p.pid],
        by simp [terminateLoop, hp], rfl⟩
    | failure s =>
      exact ⟨⟨"error", "Failed to terminate Claude: " ++ s⟩, sig ++ [p.pid],
        by simp [terminateLoop, hp], rfl⟩

end Canonical

theorem listStartsWith_append (l₁ l₂ pat : List Char)
    (h : listStartsWith l₁ pat = true) :
    listStartsWith (l₁ ++ l₂) pat = true := by
  induction pat generalizing l₁ with
  | nil => cases l₁ <;> simp [listStartsWith]
  | cons p ps ih =>
    cases l₁ with
    | nil => simp [listStartsWith] at h
    | cons c cs =>
      simp only [listStartsWith, Bool.and_eq_true] at h
      simp only [List.cons_append, listStartsWith, Bool.and_eq_true]
      exact ⟨h.1, ih cs h.2⟩

theorem containsAux_of_startsWith (pat l : List Char)
    (h : listStartsWith l pat = true) : containsAux pat l = true := by
  cases l with
  | nil =>
    cases pat with
    | nil => rfl
    | cons c cs => simp [listStartsWith] at h
  | cons c cs => simp [containsAux, h]

theorem strContains_unknown_resource (msg : String) :
    strContains ("Unknown resource: " ++ msg) "Unknown resource" = true := by
  unfold strContains
  rw [String.data_append]
  exact containsAux_of_startsWith _ _
    (listStartsWith_append _ _ _ (by decide))

example :
    Canonical.handle_call_tool "restart_claude" ()
      [⟨12345, "Claude Desktop", true, .exits⟩] .ok =
    ⟨.ok ⟨"success", "Terminated Claude process 12345. Terminated 1 existing Claude process(es). Started new Claude process."⟩,
      true, [12345], 1⟩ := by decide

example : pyReplace "claude://claude://status" "claude://" "" = "status" := by
  decide

example :
    Canonical.handle_read_resource "claude://status" (.ok []) "T" =
    .ok "\x7b\"running\": false, \"pid\": null, \"timestamp\": \"T\"\x7d" := by
  decide

theorem handle_call_tool_all_exits {α : Type} (arguments : α)
    (table : List Proc) (launch : LaunchBehavior)
    (hne : Canonical.claudeProcesses table ≠ [])
    (hall : ∀ p ∈ Canonical.claudeProcesses table, p.term = .exits) :
    Canonical.handle_call_tool "restart_claude" arguments table launch =
      { result := Except.ok (match launch with
          | .ok => ⟨"success",
              Canonical.termLog (Canonical.claudeProcesses table) ++
                "Terminated " ++ toString (Canonical.claudeProcesses table).length ++
                " existing Claude process(es). " ++ "Started new Claude process."⟩
          | .fails _ => ⟨"error", "Failed to start Claude"⟩),
        scanned := true,
        signaled := (Canonical.claudeProcesses table).map (·.pid),
        popenCalls := 1 } := by
  have hloop := Canonical.terminateLoop_all_exits
    (Canonical.claudeProcesses table) "" [] hall
  have hempty : (Canonical.claudeProcesses table).isEmpty = false := by
    cases hcp : Canonical.claudeProcesses table with
    | nil => exact absurd hcp hne
    | cons q qs => rfl
  cases launch with
  | ok =>
    simp [Canonical.handle_call_tool, hloop, hempty, String.empty_append,
      String.append_assoc]
  | fails s =>
    simp [Canonical.handle_call_tool, hloop, hempty]

/-- C1: whenever at least one process matches the target name and some
matched process fails to terminate (timeout or any other error during
signal-send or wait), `handle_call_tool("restart_claude", _)` never
invokes `subprocess.Popen` (zero invocations) and the returned
`RestartOutcome` has status `"error"`. -/
theorem C1_termination_failure_blocks_launch {α : Type} (arguments : α)
    (table : List Proc) (launch : LaunchBehavior)
    (h : ∃ p ∈ Canonical.claudeProcesses table, p.term ≠ TermBehavior.exits) :
    (Canonical.handle_call_tool "restart_claude" arguments table launch).popenCalls = 0 ∧
    ∃ o, (Canonical.handle_call_tool "restart_claude" arguments table launch).result =
        Except.ok o ∧ o.status = "error" := by
  obtain ⟨o, sig2, hloop, hstat⟩ :=
    Canonical.terminateLoop_fail (Canonical.claudeProcesses table) "" [] h
  simp only [Canonical.handle_call_tool, ne_eq, not_true_eq_false, if_false, hloop]
  exact ⟨trivial, o, rfl, hstat⟩

/-- Witness for C1: a table whose single match times out on wait. -/
theorem C1_witness :
    (Canonical.handle_call_tool "restart_claude" ()
      [⟨7, "Claude Desktop", true, .timeout "timed out"⟩] .ok).popenCalls = 0 ∧
    ∃ o, (Canonical.handle_call_tool "restart_claude" ()
      [⟨7, "Claude Desktop", true, .timeout "timed out"⟩] .ok).result =
        Except.ok o ∧ o.status = "error" :=
  C1_termination_failure_blocks_launch ()
    [⟨7, "Claude Desktop", true, .timeout "timed out"⟩] .ok (by decide)

/-- C2: with exactly one process matching the target name whose wait
raises a timeout, `handle_call_tool("restart_claude", _)` returns exactly
the outcome with status `"error"` and message
`"Failed to terminate Claude: timeout"`, and `Popen` is not invoked. -/
theorem C2_single_timeout_exact_outcome {α : Type} (arguments : α)
    (table : List Proc) (launch : LaunchBehavior) (p : Proc) (s : String)
    (hm : Canonical.claudeProcesses table = [p])
    (ht : p.term = TermBehavior.timeout s) :
    (Canonical.handle_call_tool "restart_claude" arguments table launch).result =
      Except.ok ⟨"error", "Failed to terminate Claude: timeout"⟩ ∧
    (Canonical.handle_call_tool "restart_claude" arguments table launch).popenCalls = 0 := by
  simp [Canonical.handle_call_tool, hm, Canonical.terminateLoop, ht]

/-- Witness for C2: one matching process with pid 12345 timing out. -/
theorem C2_witness :
    (Canonical.handle_call_tool "restart_claude" ()
      [⟨12345, "Claude Desktop", true, .timeout "timed out"⟩] .ok).result =
      Except.ok ⟨"error", "Failed to terminate Claude: timeout"⟩ ∧
    (Canonical.handle_call_tool "restart_claude" ()
      [⟨12345, "Claude Desktop", true, .timeout "timed out"⟩] .ok).popenCalls = 0 :=
  C2_single_timeout_exact_outcome ()
    [⟨12345, "Claude Desktop", true, .timeout "timed out"⟩] .ok
    ⟨12345, "Claude Desktop", true, .timeout "timed out"⟩ "timed out"
    (by decide) rfl

/-- C3 (amended): when every matched process terminates within the
timeout but `Popen` then fails, `handle_call_tool("restart_claude", _)`
returns status `"error"` with the launch-specific message
`"Failed to start Claude"`; that assignment OVERWRITES the message, so
the previously appended "Terminated" text is NOT present in the returned
message. -/
theorem C3_launch_failure_overwrites_message {α : Type} (arguments : α)
    (table : List Proc) (s : String)
    (hne : Canonical.claudeProcesses table ≠ [])
    (hall : ∀ p ∈ Canonical.claudeProcesses table, p.term = .exits) :
    (Canonical.handle_call_tool "restart_claude" arguments table (.fails s)).result =
      Except.ok ⟨"error", "Failed to start Claude"⟩ ∧
    (∀ o, (Canonical.handle_call_tool "restart_claude" arguments table
        (.fails s)).result = Except.ok o →
      strContains o.message "Terminated" = false) ∧
    (Canonical.handle_call_tool "restart_claude" arguments table
      (.fails s)).popenCalls = 1 := by
  rw [handle_call_tool_all_exits arguments table (.fails s) hne hall]
  refine ⟨rfl, ?_, rfl⟩
  intro o ho
  cases ho
  show strContains "Failed to start Claude" "Terminated" = false
  decide

/-- Counterexample to C3 as stated: a single cleanly terminating match
followed by a launch failure returns the message
`"Failed to start Claude"`, in which no "Terminated" text remains. -/
theorem C3_counterexample :
    (Canonical.handle_call_tool "restart_claude" ()
      [⟨12345, "Claude Desktop", true, .exits⟩] (.fails "boom")).result =
      Except.ok ⟨"error", "Failed to start Claude"⟩ ∧
    strContains "Failed to start Claude" "Terminated" = false := by decide

/-- Witness for C3 (amended). -/
theorem C3_witness :
    (Canonical.handle_call_tool "restart_claude" ()
      [⟨99, "Claude Desktop", true, .exits⟩] (.fails "no launcher")).result =
      Except.ok ⟨"error", "Failed to start Claude"⟩ ∧
    (Canonical.handle_call_tool "restart_claude" ()
      [⟨99, "Claude Desktop", true, .exits⟩] (.fails "no launcher")).popenCalls = 1 :=
  ⟨(C3_launch_failure_overwrites_message ()
      [⟨99, "Claude Desktop", true, .exits⟩] "no launcher"
      (by decide) (by decide)).1,
    (C3_launch_failure_overwrites_message ()
      [⟨99, "Claude Desktop", true, .exits⟩] "no launcher"
      (by decide) (by decide)).2.2⟩

/-- C4 (amended): when N ≥ 1 processes match and all terminate within the
timeout, `Popen` is invoked, and on launch success the returned outcome is
status `"success"` with message the per-pid lines
`"Terminated Claude process <pid>. "` followed by
`"Terminated N existing Claude process(es). Started new Claude process."`
(the code inserts the word "Claude" into both texts of the claim). -/
theorem C4_all_terminate_message {α : Type} (arguments : α)
    (table : List Proc) (launch : LaunchBehavior)
    (hne : Canonical.claudeProcesses table ≠ [])
    (hall : ∀ p ∈ Canonical.claudeProcesses table, p.term = .exits) :
    (Canonical.handle_call_tool "restart_claude" arguments table launch).popenCalls = 1 ∧
    (launch = .ok →
      (Canonical.handle_call_tool "restart_claude" arguments table launch).result =
        Except.ok ⟨"success",
          Canonical.termLog (Canonical.claudeProcesses table) ++
            "Terminated " ++ toString (Canonical.claudeProcesses table).length ++
            " existing Claude process(es). " ++ "Started new Claude process."⟩) := by
  rw [handle_call_tool_all_exits arguments table launch hne hall]
  exact ⟨rfl, fun h => by subst h; rfl⟩

/-- Counterexample to C4 as stated: for one match with pid 12345
terminating cleanly and launch succeeding, the message neither equals
`"Terminated 1 existing process(es). Started new process."` nor even
contains the text `"Terminated 1 existing process(es)"`. -/
theorem C4_counterexample :
    (Canonical.handle_call_tool "restart_claude" ()
      [⟨12345, "Claude Desktop", true, .exits⟩] .ok).result =
      Except.ok ⟨"success", "Terminated Claude process 12345. Terminated 1 existing Claude process(es). Started new Claude process."⟩ ∧
    strContains "Terminated Claude process 12345. Terminated 1 existing Claude process(es). Started new Claude process."
      "Terminated 1 existing process(es)" = false ∧
    RestartOutcome.mk "success" "Terminated Claude process 12345. Terminated 1 existing Claude process(es). Started new Claude process." ≠
      RestartOutcome.mk "success" "Terminated 1 existing process(es). Started new process." := by
  decide

/-- Witness for C4 (amended): the concrete pid-12345 scenario. -/
theorem C4_witness :
    (Canonical.handle_call_tool "restart_claude" ()
      [⟨12345, "Claude Desktop", true, .exits⟩] .ok).popenCalls = 1 ∧
    (Canonical.handle_call_tool "restart_claude" ()
      [⟨12345, "Claude Desktop", true, .exits⟩] .ok).result =
      Except.ok ⟨"success", "Terminated Claude process 12345. Terminated 1 existing Claude process(es). Started new Claude process."⟩ :=
  ⟨(C4_all_terminate_message () [⟨12345, "Claude Desktop", true, .exits⟩] .ok
      (by decide) (by decide)).1,
    (C4_all_terminate_message () [⟨12345, "Claude Desktop", true, .exits⟩] .ok
      (by decide) (by decide)).2 rfl⟩

/-- C6 (amended): with zero matching processes, no terminate signal is
sent, the returned message contains no "Terminated" text, and on launch
success the outcome is status `"success"` with message
`"Started new Claude process."` (not the claim's
`"Started new process."`). -/
theorem C6_no_match_straight_to_launch {α : Type} (arguments : α)
    (table : List Proc) (launch : LaunchBehavior)
    (h : Canonical.claudeProcesses table = []) :
    (Canonical.handle_call_tool "restart_claude" arguments table launch).signaled = [] ∧
    (∃ o, (Canonical.handle_call_tool "restart_claude" arguments table launch).result =
        Except.ok o ∧ strContains o.message "Terminated" = false) ∧
    (launch = .ok →
      (Canonical.handle_call_tool "restart_claude" arguments table launch).result =
        Except.ok ⟨"success", "Started new Claude process."⟩) := by
  cases launch with
  | ok =>
    refine ⟨?_, ⟨⟨"success", "Started new Claude process."⟩, ?_, by decide⟩,
        fun _ => ?_⟩ <;>
      simp [Canonical.handle_call_tool, h, Canonical.terminateLoop,
        String.empty_append]
  | fails s =>
    refine ⟨?_, ⟨⟨"error", "Failed to start Claude"⟩, ?_, by decide⟩,
        fun hc => by cases hc⟩ <;>
      simp [Canonical.handle_call_tool, h, Canonical.terminateLoop]

/-- Counterexample to C6 as stated: with zero matches and a successful
launch, the message is `"Started new Claude process."`, not the claim's
`"Started new process."`. -/
theorem C6_counterexample :
    (Canonical.handle_call_tool "restart_claude" ()
      ([] : List Proc) .ok).result =
      Except.ok ⟨"success", "Started new Claude process."⟩ ∧
    ("Started new Claude process." : String) ≠ "Started new process." := by decide

/-- Witness for C6 (amended): the empty process table. -/
theorem C6_witness :
    (Canonical.handle_call_tool "restart_claude" ()
      ([] : List Proc) .ok).signaled = [] ∧
    (Canonical.handle_call_tool "restart_claude" ()
      ([] : List Proc) .ok).result =
      Except.ok ⟨"success", "Started new Claude process."⟩ :=
  ⟨(C6_no_match_straight_to_launch () [] .ok rfl).1,
    (C6_no_match_straight_to_launch () [] .ok rfl).2.2 rfl⟩

theorem read_status_ok (table : List Proc) (ts : String) :
    Canonical.handle_read_resource "claude://status" (.ok table) ts =
      Except.ok (dumpsStatus (Canonical.statusOf table ts)) := rfl

/-- C5: the status produced by `handle_read_resource("claude://status")`
satisfies `running == (pid is not None)`: `running` is true with `pid` the
first match's pid when at least one process matches, and `running` is
false with `pid` null when none match.  Holds for the status dicts of
both the canonical and the legacy implementation. -/
theorem C5_status_running_iff_pid (table : List Proc) (ts : String) :
    ((Canonical.statusOf table ts).running =
      (Canonical.statusOf table ts).pid.isSome) ∧
    Canonical.handle_read_resource "claude://status" (ScanOutcome.ok table) ts =
      Except.ok (dumpsStatus (Canonical.statusOf table ts)) ∧
    (∀ p, (Canonical.claudeProcesses table).head? = some p →
      (Canonical.statusOf table ts).running = true ∧
      (Canonical.statusOf table ts).pid = some p.pid) ∧
    (Canonical.claudeProcesses table = [] →
      (Canonical.statusOf table ts).running = false ∧
      (Canonical.statusOf table ts).pid = none) ∧
    ((Legacy.statusOf table ts).running = (Legacy.statusOf table ts).pid.isSome) := by
  refine ⟨?_, read_status_ok table ts, ?_, ?_, ?_⟩
  · cases hm : Canonical.claudeProcesses table with
    | nil => simp [Canonical.statusOf, hm]
    | cons q qs => simp [Canonical.statusOf, hm]
  · intro p hp
    cases hm : Canonical.claudeProcesses table with
    | nil => rw [hm] at hp; cases hp
    | cons q qs =>
      rw [hm] at hp
      simp only [List.head?_cons, Option.some.injEq] at hp
      subst hp
      simp [Canonical.statusOf, hm]
  · intro hm
    simp [Canonical.statusOf, hm]
  · cases hm : Legacy.firstMatch table <;> simp [Legacy.statusOf, hm]

/-- Witness for C5: one matching process with pid 54321. -/
theorem C5_witness :
    (Canonical.statusOf [⟨54321, "Claude Desktop", true, .exits⟩] "T").running = true ∧
    (Canonical.statusOf [⟨54321, "Claude Desktop", true, .exits⟩] "T").pid = some 54321 :=
  (C5_status_running_iff_pid [⟨54321, "Claude Desktop", true, .exits⟩] "T").2.2.1
    ⟨54321, "Claude Desktop", true, .exits⟩ (by decide)

/-- C7: any tool name other than "restart_claude" fails with an
unknown-tool `ValueError` before anything happens: no scan, no terminate
signal, no launch.  Holds in both implementations. -/
theorem C7_unknown_tool_never_starts {α : Type} (name : String) (arguments : α)
    (table : List Proc) (launch : LaunchBehavior)
    (h : name ≠ "restart_claude") :
    Canonical.handle_call_tool name arguments table launch =
      ⟨Except.error ("Unknown tool: " ++ name), false, [], 0⟩ ∧
    Legacy.handle_call_tool name arguments table launch =
      ⟨Except.error ("Unknown tool: " ++ name), false, [], 0⟩ := by
  constructor <;> simp [Canonical.handle_call_tool, Legacy.handle_call_tool, h]

/-- Witness for C7: the tool name "foo". -/
theorem C7_witness :
    Canonical.handle_call_tool "foo" () ([] : List Proc) .ok =
      ⟨Except.error "Unknown tool: foo", false, [], 0⟩ ∧
    Legacy.handle_call_tool "foo" () ([] : List Proc) .ok =
      ⟨Except.error "Unknown tool: foo", false, [], 0⟩ :=
  C7_unknown_tool_never_starts "foo" () [] .ok (by decide)

/-- C8 (amended): the canonical `handle_read_resource` accepts exactly
the identifiers that start with `"claude://"` and whose deletion of EVERY
occurrence of `"claude://"` leaves `"status"` — because the check uses
`uri.replace("claude://", "")`, identifiers other than
`"claude://status"` (e.g. `"claude://claude://status"`) are also
accepted.  Every rejected identifier fails with a `ValueError` whose
message contains "Unknown resource"; accepted identifiers return the JSON
serialization of the status object with exactly the fields `running`,
`pid` and `timestamp`.  The legacy handler rejects every identifier other
than `"claude://status"`. -/
theorem C8_resource_identifier_check (uri ts : String) (table : List Proc) :
    ((strStartsWith uri "claude://" = true ∧
        pyReplace uri "claude://" "" = "status") →
      Canonical.handle_read_resource uri (.ok table) ts =
        Except.ok (dumpsStatus (Canonical.statusOf table ts))) ∧
    (¬(strStartsWith uri "claude://" = true ∧
        pyReplace uri "claude://" "" = "status") →
      ∃ e, Canonical.handle_read_resource uri (.ok table) ts = Except.error e ∧
        e.ty = "ValueError" ∧ strContains e.msg "Unknown resource" = true) ∧
    (uri ≠ "claude://status" →
      ∃ e, Legacy.handle_read_resource uri table ts = Except.error e ∧
        e.ty = "ValueError" ∧ strContains e.msg "Unknown resource" = true) := by
  refine ⟨?_, ?_, ?_⟩
  · rintro ⟨h1, h2⟩
    simp +decide [Canonical.handle_read_resource,
      Canonical.handle_read_resource_body, h1, h2]
  · intro h
    by_cases h1 : strStartsWith uri "claude://" = true
    · have h2 : pyReplace uri "claude://" "" ≠ "status" := fun hc => h ⟨h1, hc⟩
      have hbne : (pyReplace uri "claude://" "" != "status") = true :=
        bne_iff_ne.mpr h2
      refine ⟨⟨"ValueError", "Unknown resource: " ++ pyReplace uri "claude://" ""⟩,
        ?_, rfl, strContains_unknown_resource _⟩
      simp [Canonical.handle_read_resource, Canonical.handle_read_resource_body,
        h1, hbne, strContains_unknown_resource]
    · have hb : strStartsWith uri "claude://" = false := by
        revert h1; cases strStartsWith uri "claude://" <;> simp
      refine ⟨⟨"ValueError", "Unknown resource: Invalid URI scheme"⟩, ?_, rfl,
        by decide⟩
      simp +decide [Canonical.handle_read_resource,
        Canonical.handle_read_resource_body, hb]
  · intro h
    exact ⟨⟨"ValueError", "Unknown resource: " ++ uri⟩,
      by simp [Legacy.handle_read_resource, h], rfl,
      strContains_unknown_resource uri⟩

/-- Counterexample to C8 as stated: `"claude://claude://status"` differs
from the fixed identifier yet is accepted by the canonical handler
(`uri.replace("claude://", "")` deletes both occurrences). -/
theorem C8_counterexample :
    ("claude://claude://status" : String) ≠ "claude://status" ∧
    Canonical.handle_read_resource "claude://claude://status" (.ok []) "T" =
      Except.ok "\x7b\"running\": false, \"pid\": null, \"timestamp\": \"T\"\x7d" := by
  decide

/-- Witness for C8 (amended): the fixed identifier succeeds and
`"unknown://x"` fails with an unknown-resource `ValueError` in both
implementations. -/
theorem C8_witness :
    Canonical.handle_read_resource "claude://status" (.ok []) "T" =
      Except.ok (dumpsStatus (Canonical.statusOf [] "T")) ∧
    (∃ e, Canonical.handle_read_resource "unknown://x" (.ok []) "T" =
        Except.error e ∧
      e.ty = "ValueError" ∧ strContains e.msg "Unknown resource" = true) ∧
    (∃ e, Legacy.handle_read_resource "unknown://x" [] "T" = Except.error e ∧
      e.ty = "ValueError" ∧ strContains e.msg "Unknown resource" = true) :=
  ⟨(C8_resource_identifier_check "claude://status" "T" []).1 (by decide),
    (C8_resource_identifier_check "unknown://x" "T" []).2.1 (by decide),
    (C8_resource_identifier_check "unknown://x" "T" []).2.2 (by decide)⟩

theorem body_error_shape (uri : String) (scan : ScanOutcome) (ts : String)
    (e0 : PyExc)
    (hb : Canonical.handle_read_resource_body uri scan ts = Except.error e0) :
    e0.ty = "ValueError" ∨ scan = ScanOutcome.raises e0.ty e0.msg := by
  simp only [Canonical.handle_read_resource_body] at hb
  split at hb
  · exact Or.inl (by cases hb; rfl)
  · split at hb
    · exact Or.inl (by cases hb; rfl)
    · cases scan with
      | ok table => cases hb
      | raises ty msg => cases hb; exact Or.inr rfl

/-- C9 (amended): every failure inside the canonical
`handle_read_resource` is surfaced as an exception whose message contains
"Unknown resource"; it is a `ValueError` UNLESS the underlying failure's
own message already contains "Unknown resource", in which case the
original exception (of its original type) is re-raised unchanged. -/
theorem C9_error_wrapping (uri : String) (scan : ScanOutcome) (ts : String)
    (e : PyExc)
    (h : Canonical.handle_read_resource uri scan ts = Except.error e) :
    strContains e.msg "Unknown resource" = true ∧
    (e.ty = "ValueError" ∨ scan = ScanOutcome.raises e.ty e.msg) := by
  unfold Canonical.handle_read_resource at h
  cases hb : Canonical.handle_read_resource_body uri scan ts with
  | ok s => rw [hb] at h; cases h
  | error e0 =>
    rw [hb] at h
    have h' : (if strContains e0.msg "Unknown resource" = true then
          (Except.error e0 : Except PyExc String)
        else Except.error ⟨"ValueError", "Unknown resource: " ++ e0.msg⟩) =
        Except.error e := h
    by_cases hc : strContains e0.msg "Unknown resource" = true
    · rw [if_pos hc] at h'
      cases h'
      exact ⟨hc, body_error_shape uri scan ts _ hb⟩
    · rw [if_neg hc] at h'
      cases h'
      exact ⟨strContains_unknown_resource _, Or.inl rfl⟩

/-- Counterexample to C9 as stated: a scan failure of type
`RuntimeError` whose message happens to contain "Unknown resource" is
re-raised unchanged, so a non-`ValueError` escapes
`handle_read_resource`. -/
theorem C9_counterexample :
    Canonical.handle_read_resource "claude://status"
      (.raises "RuntimeError" "scan failed: Unknown resource table") "T" =
      Except.error ⟨"RuntimeError", "scan failed: Unknown resource table"⟩ ∧
    ("RuntimeError" : String) ≠ "ValueError" := by decide

/-- Witness for C9 (amended): an invalid scheme surfaces as a
`ValueError` mentioning "Unknown resource". -/
theorem C9_witness :
    strContains "Unknown resource: Invalid URI scheme" "Unknown resource" = true ∧
    (("ValueError" : String) = "ValueError" ∨
      ScanOutcome.ok ([] : List Proc) =
        ScanOutcome.raises "ValueError" "Unknown resource: Invalid URI scheme") :=
  C9_error_wrapping "bad://x" (.ok []) "T"
    ⟨"ValueError", "Unknown resource: Invalid URI scheme"⟩ (by decide)

theorem find?_eq_head?_filter (p : Proc → Bool) (l : List Proc) :
    l.find? p = (l.filter p).head? := by
  induction l with
  | nil => rfl
  | cons a as ih =>
    by_cases h : p a = true
    · rw [List.find?_cons_of_pos _ h, List.filter_cons_of_pos h, List.head?_cons]
    · rw [List.find?_cons_of_neg _ h, List.filter_cons_of_neg h, ih]

/-- C10 (amended): the legacy `handle_call_tool` sends a terminate signal
to at most one process: the scan stops at the first process whose name
CONTAINS the substring "Claude" (not an exact match of "Claude Desktop"),
so when several processes match, all matches after the first are left
unsignaled; the launch is still attempted PROVIDED the first match's
termination succeeds (when it fails, the call returns an error without
launching). -/
theorem C10_legacy_first_substring_match {α : Type} (arguments : α)
    (table : List Proc) (launch : LaunchBehavior) :
    (Legacy.handle_call_tool "restart_claude" arguments table launch).signaled.length ≤ 1 ∧
    Legacy.firstMatch table = (Legacy.substrMatches table).head? ∧
    (∀ p, Legacy.firstMatch table = some p → p.term = TermBehavior.exits →
      (Legacy.handle_call_tool "restart_claude" arguments table launch).signaled =
        [p.pid] ∧
      (Legacy.handle_call_tool "restart_claude" arguments table launch).popenCalls = 1) := by
  refine ⟨?_, find?_eq_head?_filter _ table, ?_⟩
  · cases hf : Legacy.firstMatch table with
    | none =>
      cases launch <;> simp [Legacy.handle_call_tool, hf, Legacy.launchStep]
    | some p =>
      cases hp : p.term with
      | exits =>
        cases launch <;>
          simp [Legacy.handle_call_tool, hf, hp, Legacy.launchStep]
      | timeout s => simp [Legacy.handle_call_tool, hf, hp]
      | failure s => simp [Legacy.handle_call_tool, hf, hp]
  · intro p hf hp
    cases launch <;>
      simp [Legacy.handle_call_tool, hf, hp, Legacy.launchStep]

/-- Counterexample to C10 as stated: two legacy matches whose first fails
to terminate — the matches after the first stay unsignaled, but the
launch is NOT attempted (`Popen` recorded zero invocations). -/
theorem C10_counterexample :
    (Legacy.substrMatches [⟨1, "Claude Desktop", true, .failure "denied"⟩,
      ⟨2, "Claude Helper", true, .exits⟩]).length = 2 ∧
    (Legacy.handle_call_tool "restart_claude" ()
      [⟨1, "Claude Desktop", true, .failure "denied"⟩,
        ⟨2, "Claude Helper", true, .exits⟩] .ok).popenCalls = 0 ∧
    (Legacy.handle_call_tool "restart_claude" ()
      [⟨1, "Claude Desktop", true, .failure "denied"⟩,
        ⟨2, "Claude Helper", true, .exits⟩] .ok).signaled = [1] := by decide

/-- Witness for C10 (amended): two substring matches, the first
terminating cleanly — only the first is signaled and the launch runs. -/
theorem C10_witness :
    (Legacy.handle_call_tool "restart_claude" ()
      [⟨1, "Claude Desktop", true, .exits⟩,
        ⟨2, "Claude Helper", true, .exits⟩] .ok).signaled = [1] ∧
    (Legacy.handle_call_tool "restart_claude" ()
      [⟨1, "Claude Desktop", true, .exits⟩,
        ⟨2, "Claude Helper", true, .exits⟩] .ok).popenCalls = 1 :=
  (C10_legacy_first_substring_match ()
    [⟨1, "Claude Desktop", true, .exits⟩, ⟨2, "Claude Helper", true, .exits⟩]
    .ok).2.2 ⟨1, "Claude Desktop", true, .exits⟩ (by decide) rfl

end MCPRestart
